import Mathlib

/-!
# Verification of the sparrow-investor-intake pipeline

Shallow embedding of the two HTTP handlers of the repository:

* `src/api/save_to_notion.js` — the Record Upserter: validates that a
  contact method is present, optionally looks up an existing record by
  email or phone, maps the flat request body onto a typed Notion
  property set, and issues a create or an update call.
* `src/api/webhook.js` — the Event Normalizer: validates the investor
  email, folds the DealMaker webhook body into a flat attribute set
  (`notionPayload`), applies event-specific overrides, and forwards the
  payload to the upserter endpoint over HTTP.

JavaScript conventions modelled explicitly:

* an absent object key is `Option.none`; `x !== undefined` is `Option.isSome`;
* string truthiness (`if (s)`) is `strTruthy`: present and non-empty;
* `a || b` on strings is `jsOrStr`: `a` when truthy, else `b`;
* JS numbers are modelled as `Int` (every value the claims exercise is an
  integer; float rounding is out of scope);
* a value that may arrive either as a number or as a string
  (`investment_amount`) is a `JSPrim`.

External effects (the Notion query/create/update calls, and the
normalizer's HTTP call to the upserter) are made explicit: the store's
answer to the lookup query is a `StoreResp` parameter, and the calls the
handler issues are returned as an `ExtCall` list.  Failures of the final
create/update call (HTTP 500 paths) are not modelled: no claim depends
on them, only on which calls are issued.
-/

/-- A JavaScript primitive that may be a number or a string; used for
fields the caller may send in either form. -/
inductive JSPrim where
  | jnum (n : Int)
  | jstr (s : String)
deriving DecidableEq, Repr

/-- JS truthiness of a possibly absent string: present and non-empty. -/
def strTruthy : Option String → Bool
  | none => false
  | some s => !(s == "")

/-- JS truthiness of a possibly absent boolean. -/
def boolTruthy : Option Bool → Bool
  | none => false
  | some b => b

/-- JS truthiness of a possibly absent number-or-string value
(`0`, the empty string, and absence are falsy). -/
def primTruthy : Option JSPrim → Bool
  | none => false
  | some (.jnum n) => !(n == 0)
  | some (.jstr s) => !(s == "")

/-- JS `a || b` on possibly absent strings: `a` when truthy, else `b`. -/
def jsOrStr (a b : Option String) : Option String :=
  if strTruthy a then a else b

/-- The request body destructured by `src/api/save_to_notion.js`
(lines 34–80).  Every field is optional; fields the caller omits are
`none`.  Keys the webhook sends but the upserter never destructures
(`security_type_ecf26`, `amount_dollars_ecf26`, ...) have no field here:
the upserter drops them. -/
structure SaveReq where
  first_name : Option String := none
  last_name : Option String := none
  phone_number : Option String := none
  email : Option String := none
  street_address : Option String := none
  unit2 : Option String := none
  city : Option String := none
  region : Option String := none
  postal_code : Option String := none
  country : Option String := none
  investment_amount : Option JSPrim := none
  is_accredited : Option Bool := none
  entry_id : Option String := none
  update_existing : Option Bool := none
  utm_source : Option String := none
  utm_medium : Option String := none
  utm_campaign : Option String := none
  utm_content : Option String := none
  utm_term : Option String := none
  entered_funnel : Option Bool := none
  checkout2_started : Option Bool := none
  investor_funded_status : Option Bool := none
  investor_deck_downloaded_ecf26 : Option Bool := none
  marketing_consent : Option Bool := none
  sms_consent : Option Bool := none
  investor_state : Option String := none
  ac_sync_status : Option String := none
  tags : Option (List String) := none
deriving DecidableEq, Repr

/-- A typed Notion property value, one constructor per property type the
upserter writes.  `number` keeps the raw request value: the source stores
`parseFloat(raw)`, and the coercion itself is not modelled because no
claim inspects the numeric value, only the property's presence and type. -/
inductive PropValue where
  | title (content : String)
  | email (e : String)
  | phone (p : String)
  | richText (content : String)
  | number (raw : JSPrim)
  | checkbox (b : Bool)
  | select (sname : String)
  | multiSelect (names : List String)
  | date (start : String)
  | relation (ids : List String)
deriving DecidableEq, Repr

/-- One conditional property block: a single named property when the
JS condition holds, nothing otherwise. -/
def propIf (c : Bool) (pname : String) (v : PropValue) : List (String × PropValue) :=
  if c then [(pname, v)] else []

/-- JS `String.prototype.trim`: strip whitespace from both ends.
Implemented by structural recursion (`List.dropWhile`) so that concrete
instances reduce in the kernel; `String.trim` of core Lean is
extensionally the same function but is defined by well-founded recursion
and does not reduce. -/
def jsTrim (s : String) : String :=
  ⟨((s.data.dropWhile Char.isWhitespace).reverse.dropWhile Char.isWhitespace).reverse⟩

/-- `save_to_notion.js` line 144: the Name title content,
`` `${first_name || ''} ${last_name || ''}`.trim() || 'No name provided' ``. -/
def titleContent (r : SaveReq) : String :=
  let s := jsTrim ((r.first_name.getD "") ++ " " ++ (r.last_name.getD ""))
  if s == "" then "No name provided" else s

/-- `save_to_notion.js` lines 166–173: the truthy address sub-fields, in
order (street, unit, city, region, postal code, country). -/
def addressParts (r : SaveReq) : List String :=
  [r.street_address, r.unit2, r.city, r.region, r.postal_code, r.country].filterMap
    (fun o => match o with
      | some s => if s == "" then none else some s
      | none => none)

/-- The constant Group relation target (`save_to_notion.js` line 306). -/
def groupRelationId : String := "2e110ef8d70d80aa872fc31246ca1f85"

/-- `save_to_notion.js` lines 139–308: the mapped property set, in source
order.  `target` is the resolved `targetEntryId` (line 288) and `now` the
ISO timestamp taken at line 285.  Conditions mirror the source: string
fields are gated on truthiness, checkbox fields on `!== undefined`, tags
on being a non-empty array, `Created At` on the target being falsy;
`Name`, `Last Updated` and `Group` are unconditional. -/
def buildProperties (r : SaveReq) (target : Option String) (now : String) :
    List (String × PropValue) :=
  [("Name", PropValue.title (titleContent r))]
  ++ propIf (strTruthy r.email) "Email" (PropValue.email (r.email.getD ""))
  ++ propIf (strTruthy r.phone_number) "Phone" (PropValue.phone (r.phone_number.getD ""))
  ++ propIf (!(addressParts r).isEmpty) "Address"
      (PropValue.richText (String.intercalate ", " (addressParts r)))
  ++ propIf (primTruthy r.investment_amount) "Investment Amount"
      (PropValue.number (r.investment_amount.getD (JSPrim.jnum 0)))
  ++ propIf r.is_accredited.isSome "Accredited Investor"
      (PropValue.checkbox (r.is_accredited.getD false))
  ++ propIf (strTruthy r.utm_source) "UTM Source"
      (PropValue.richText (r.utm_source.getD ""))
  ++ propIf (strTruthy r.utm_medium) "UTM Medium"
      (PropValue.richText (r.utm_medium.getD ""))
  ++ propIf (strTruthy r.utm_campaign) "UTM Campaign"
      (PropValue.richText (r.utm_campaign.getD ""))
  ++ propIf (strTruthy r.utm_content) "UTM Content"
      (PropValue.richText (r.utm_content.getD ""))
  ++ propIf (strTruthy r.utm_term) "UTM Term"
      (PropValue.richText (r.utm_term.getD ""))
  ++ propIf r.entered_funnel.isSome "status: entered_funnel_ecf26"
      (PropValue.checkbox (r.entered_funnel.getD false))
  ++ propIf r.checkout2_started.isSome "action: checkout2_started_ecf26"
      (PropValue.checkbox (r.checkout2_started.getD false))
  ++ propIf r.investor_funded_status.isSome "investor_funded_status_ecf26"
      (PropValue.checkbox (r.investor_funded_status.getD false))
  ++ propIf r.investor_deck_downloaded_ecf26.isSome "status: entered_funnel_pitch_ecf26"
      (PropValue.checkbox (r.investor_deck_downloaded_ecf26.getD false))
  ++ propIf r.marketing_consent.isSome "Marketing Consent"
      (PropValue.checkbox (r.marketing_consent.getD false))
  ++ propIf r.sms_consent.isSome "SMS Consent"
      (PropValue.checkbox (r.sms_consent.getD false))
  ++ propIf (strTruthy r.investor_state) "investor_state_ecf26"
      (PropValue.select (r.investor_state.getD ""))
  ++ propIf (strTruthy r.ac_sync_status) "AC Sync Status"
      (PropValue.select (r.ac_sync_status.getD ""))
  ++ propIf (!(r.tags.getD []).isEmpty) "Tags"
      (PropValue.multiSelect (r.tags.getD []))
  ++ propIf (!(strTruthy target)) "Created At" (PropValue.date now)
  ++ [("Last Updated", PropValue.date now)]
  ++ [("Group", PropValue.relation [groupRelationId])]

/-- A record returned by the Notion database query: its page id and the
values of its `Email` / `Phone` properties (absent when the page lacks
them), as read by the `matchedBy` logic at lines 123–128. -/
structure PageRec where
  id : String
  emailProp : Option String := none
  phoneProp : Option String := none
deriving DecidableEq, Repr

/-- The store's answer to the lookup query: a transport/API error (the
`catch` at line 132) or an ordered result list. -/
inductive StoreResp where
  | err
  | ok (results : List PageRec)
deriving DecidableEq, Repr

/-- Well-formedness of a store response: every returned page has a
non-empty identifier (Notion page ids are UUIDs). -/
def StoreResp.wf : StoreResp → Prop
  | .err => True
  | .ok rs => ∀ rec ∈ rs, rec.id ≠ ""

/-- A query filter as built at lines 96–117: an equality filter on the
`Email` property, on the `Phone` property, or an `or`-disjunction. -/
inductive QueryFilter where
  | emailEq (v : String)
  | phoneEq (v : String)
  | disj (fs : List QueryFilter)

/-- Lines 96–110: the filter list, email filter first, each pushed only
when its identity value is truthy. -/
def lookupFilters (r : SaveReq) : List QueryFilter :=
  (if strTruthy r.email then [QueryFilter.emailEq (r.email.getD "")] else [])
  ++ (if strTruthy r.phone_number then [QueryFilter.phoneEq (r.phone_number.getD "")] else [])

/-- Lines 114–116: `filters.length > 1 ? { or: filters } : filters[0]`.
`filters[0]` of an empty list is JS `undefined`, hence the `Option`. -/
def lookupFilterOpt (r : SaveReq) : Option QueryFilter :=
  let fs := lookupFilters r
  if fs.length > 1 then some (QueryFilter.disj fs) else fs.head?

/-- Line 94: the lookup runs exactly when `update_existing` is truthy and
`entry_id` is falsy. -/
def doLookup (r : SaveReq) : Bool :=
  boolTruthy r.update_existing && !(strTruthy r.entry_id)

/-- Lines 112–135: the matched existing entry — the first query result
when the lookup ran and succeeded with a non-empty result list; `none`
when the lookup was skipped, errored (swallowed by the `catch`), or
returned nothing. -/
def existingEntry (r : SaveReq) (store : StoreResp) : Option PageRec :=
  if doLookup r then
    match store with
    | .err => none
    | .ok rs => rs.head?
  else none

/-- Lines 122–128: which identity field matched, compared with JS `===`
(`undefined === undefined` is true, which `Option` equality mirrors). -/
def matchedBy (r : SaveReq) (store : StoreResp) : Option String :=
  match existingEntry r store with
  | none => none
  | some rec =>
    if rec.emailProp == r.email then some "email"
    else if rec.phoneProp == r.phone_number then some "phone"
    else none

/-- Line 288: `existingEntry?.id || entry_id`. -/
def targetEntryId (r : SaveReq) (store : StoreResp) : Option String :=
  jsOrStr ((existingEntry r store).map PageRec.id) r.entry_id

/-- An external call issued by the upserter, in issue order: the lookup
query, a page update, or a page create. -/
inductive ExtCall where
  | query (filter : Option QueryFilter)
  | update (pageId : String) (props : List (String × PropValue))
  | create (props : List (String × PropValue))

/-- The whole `save_to_notion.js` handler on a POST body: the HTTP status
of the validation outcome together with the external calls issued, given
the store's answer `store` to the lookup (consulted only if the lookup
runs) and the timestamp `now`.  Returns `(400, [])` when both email and
phone are falsy (lines 83–88); otherwise runs the optional lookup and
dispatches update-vs-create on the truthiness of `targetEntryId`
(lines 311–340).  The response bodies and the 500 path on a failing
create/update are not modelled. -/
def runSave (r : SaveReq) (now : String) (store : StoreResp) : Nat × List ExtCall :=
  if !(strTruthy r.email) && !(strTruthy r.phone_number) then (400, [])
  else if strTruthy (targetEntryId r store) then
    (200, (if doLookup r then [ExtCall.query (lookupFilterOpt r)] else [])
      ++ [ExtCall.update ((targetEntryId r store).getD "")
            (buildProperties r (targetEntryId r store) now)])
  else
    (200, (if doLookup r then [ExtCall.query (lookupFilterOpt r)] else [])
      ++ [ExtCall.create (buildProperties r (targetEntryId r store) now)])

/-- The nested `investor` object of the DealMaker webhook body
(`src/api/webhook.js`), with the fields the handler reads. -/
structure Investor where
  id : Option String := none
  email : Option String := none
  first_name : Option String := none
  last_name : Option String := none
  phone_number : Option String := none
  number_of_securities : Option Int := none
  investment_amount : Option Int := none
  allocated_amount : Option Int := none
  funding_state : Option String := none
  state : Option String := none
  promotional_marketing_consent : Option Bool := none
  beneficial_address : Option String := none
  tags : Option (List String) := none
deriving DecidableEq, Repr

/-- The nested `deal` object of the webhook body. -/
structure Deal where
  title : Option String := none
  security_type : Option String := none
  price_per_security : Option Int := none
deriving DecidableEq, Repr

/-- The webhook body: event label plus the nested objects. -/
structure WebhookBody where
  event : Option String := none
  event_id : Option String := none
  investor : Option Investor := none
  deal : Option Deal := none
deriving DecidableEq, Repr

/-- The flat attribute set (`notionPayload`) the webhook sends to the
upserter endpoint.  `email`, the name fields, `phone_number` and
`update_existing` are set unconditionally in the base payload
(`webhook.js` lines 51–57); all other keys are added only when the
corresponding source field is present. -/
structure NotionPayload where
  email : String
  first_name : String
  last_name : String
  phone_number : String
  update_existing : Bool
  security_type_ecf26 : Option String := none
  investor_price_ecf26 : Option Int := none
  number_of_securities_ecf26 : Option Int := none
  amount_dollars_ecf26 : Option Int := none
  total_amount_dollars_ecf26 : Option Int := none
  funds_state_ecf26 : Option String := none
  investor_state : Option String := none
  marketing_consent : Option Bool := none
  sms_consent : Option Bool := none
  street_address : Option String := none
  ancillary_fees_ecf26 : Option Int := none
  checkout2_started : Option Bool := none
  investor_funded_status : Option Bool := none
deriving DecidableEq, Repr

/-- `webhook.js` lines 51–57: the base payload.  `email` is written
verbatim (the handler has already checked it is truthy); the name and
phone fields default to the empty string via `|| ''`. -/
def basePayload (inv : Investor) : NotionPayload :=
  { email := inv.email.getD ""
    first_name := inv.first_name.getD ""
    last_name := inv.last_name.getD ""
    phone_number := inv.phone_number.getD ""
    update_existing := true }

/-- `webhook.js` lines 62–65: `deal.security_type`, when truthy. -/
def setSecurityType (d : Deal) (p : NotionPayload) : NotionPayload :=
  if strTruthy d.security_type then
    { p with security_type_ecf26 := d.security_type } else p

/-- `webhook.js` lines 68–71: `deal.price_per_security`, when present. -/
def setPricePerSecurity (d : Deal) (p : NotionPayload) : NotionPayload :=
  if d.price_per_security.isSome then
    { p with investor_price_ecf26 := d.price_per_security } else p

/-- `webhook.js` lines 60–72: deal-derived keys, added only when the
`deal` object and the respective field are present. -/
def withDealFields (deal : Option Deal) (p : NotionPayload) : NotionPayload :=
  match deal with
  | none => p
  | some d => setPricePerSecurity d (setSecurityType d p)

/-- `webhook.js` lines 77–80. -/
def setNumberOfSecurities (inv : Investor) (p : NotionPayload) : NotionPayload :=
  if inv.number_of_securities.isSome then
    { p with number_of_securities_ecf26 := inv.number_of_securities } else p

/-- `webhook.js` lines 83–86. -/
def setAmountDollars (inv : Investor) (p : NotionPayload) : NotionPayload :=
  if inv.investment_amount.isSome then
    { p with amount_dollars_ecf26 := inv.investment_amount } else p

/-- `webhook.js` lines 89–92. -/
def setTotalAmountDollars (inv : Investor) (p : NotionPayload) : NotionPayload :=
  if inv.allocated_amount.isSome then
    { p with total_amount_dollars_ecf26 := inv.allocated_amount } else p

/-- `webhook.js` lines 95–98. -/
def setFundsState (inv : Investor) (p : NotionPayload) : NotionPayload :=
  if strTruthy inv.funding_state then
    { p with funds_state_ecf26 := inv.funding_state } else p

/-- `webhook.js` lines 101–104. -/
def setInvestorState (inv : Investor) (p : NotionPayload) : NotionPayload :=
  if strTruthy inv.state then
    { p with investor_state := inv.state } else p

/-- `webhook.js` lines 107–111: the single upstream consent flag fans out
to both `marketing_consent` and `sms_consent`. -/
def setConsent (inv : Investor) (p : NotionPayload) : NotionPayload :=
  if inv.promotional_marketing_consent.isSome then
    { p with marketing_consent := inv.promotional_marketing_consent,
             sms_consent := inv.promotional_marketing_consent } else p

/-- `webhook.js` lines 114–117. -/
def setStreetAddress (inv : Investor) (p : NotionPayload) : NotionPayload :=
  if strTruthy inv.beneficial_address then
    { p with street_address := inv.beneficial_address } else p

/-- `webhook.js` lines 122–128: `ancillary_fees_ecf26` is
`allocated_amount - investment_amount`, written only when both inputs are
present (`!== undefined`) and the difference is strictly positive. -/
def setAncillaryFees (inv : Investor) (p : NotionPayload) : NotionPayload :=
  match inv.allocated_amount, inv.investment_amount with
  | some a, some i =>
    if a - i > 0 then { p with ancillary_fees_ecf26 := some (a - i) } else p
  | _, _ => p

/-- `webhook.js` lines 74–145: investor-derived keys, in source order.
The bonus-tags block (lines 133–145) only logs and writes no key. -/
def withInvestorFields (inv : Investor) (p : NotionPayload) : NotionPayload :=
  setAncillaryFees inv (setStreetAddress inv (setConsent inv (setInvestorState inv
    (setFundsState inv (setTotalAmountDollars inv (setAmountDollars inv
      (setNumberOfSecurities inv p)))))))

/-- `webhook.js` lines 148–185: the event-label switch.
`investor.update` and unrecognized labels change nothing. -/
def withEventOverride (event : Option String) (p : NotionPayload) : NotionPayload :=
  if event == some "investor.create" then { p with checkout2_started := some true }
  else if event == some "investor.signed" then { p with investor_state := some "signed" }
  else if event == some "investor.funded" then
    { p with investor_funded_status := some true, investor_state := some "funded" }
  else if event == some "investor.accepted" then { p with investor_state := some "accepted" }
  else p

/-- The full `notionPayload` built for a non-rejected webhook body. -/
def buildNotionPayload (b : WebhookBody) (inv : Investor) : NotionPayload :=
  withEventOverride b.event (withInvestorFields inv (withDealFields b.deal (basePayload inv)))

/-- The webhook handler up to its outbound call: `none` means the
request was rejected with HTTP 400 and no outbound call was made
(`webhook.js` lines 41–44, `if (!investor || !investor.email)`);
`some p` means the payload `p` is POSTed to the upserter endpoint. -/
def webhookNormalize (b : WebhookBody) : Option NotionPayload :=
  match b.investor with
  | none => none
  | some inv => if strTruthy inv.email then some (buildNotionPayload b inv) else none

/-- The request body the upserter destructures out of a forwarded
webhook payload (the JSON round trip over the chained HTTP call).
Keys the payload carries under `_ecf26` names that the upserter never
destructures are dropped; in particular the payload has no
`investment_amount`, `entry_id`, utm, tags or accreditation keys. -/
def reqOfPayload (p : NotionPayload) : SaveReq :=
  { first_name := some p.first_name
    last_name := some p.last_name
    phone_number := some p.phone_number
    email := some p.email
    street_address := p.street_address
    update_existing := some p.update_existing
    checkout2_started := p.checkout2_started
    investor_funded_status := p.investor_funded_status
    marketing_consent := p.marketing_consent
    sms_consent := p.sms_consent
    investor_state := p.investor_state }

/-! ## Helper lemmas -/

theorem mem_map_fst_propIf {a pname : String} {v : PropValue} {c : Bool} :
    a ∈ (propIf c pname v).map Prod.fst ↔ (c = true ∧ a = pname) := by
  cases c <;> simp [propIf]

theorem pair_mem_propIf {a pname : String} {x v : PropValue} {c : Bool} :
    (a, x) ∈ propIf c pname v ↔ (c = true ∧ a = pname ∧ x = v) := by
  cases c <;> simp [propIf]

theorem basePayload_ancillary (inv : Investor) :
    (basePayload inv).ancillary_fees_ecf26 = none := rfl

theorem setSecurityType_ancillary (d : Deal) (p : NotionPayload) :
    (setSecurityType d p).ancillary_fees_ecf26 = p.ancillary_fees_ecf26 := by
  unfold setSecurityType; split_ifs <;> rfl

theorem setPricePerSecurity_ancillary (d : Deal) (p : NotionPayload) :
    (setPricePerSecurity d p).ancillary_fees_ecf26 = p.ancillary_fees_ecf26 := by
  unfold setPricePerSecurity; split_ifs <;> rfl

theorem withDealFields_ancillary (d : Option Deal) (p : NotionPayload) :
    (withDealFields d p).ancillary_fees_ecf26 = p.ancillary_fees_ecf26 := by
  cases d with
  | none => rfl
  | some d =>
    simp only [withDealFields, setPricePerSecurity_ancillary, setSecurityType_ancillary]

theorem setNumberOfSecurities_ancillary (inv : Investor) (p : NotionPayload) :
    (setNumberOfSecurities inv p).ancillary_fees_ecf26 = p.ancillary_fees_ecf26 := by
  unfold setNumberOfSecurities; split_ifs <;> rfl

theorem setAmountDollars_ancillary (inv : Investor) (p : NotionPayload) :
    (setAmountDollars inv p).ancillary_fees_ecf26 = p.ancillary_fees_ecf26 := by
  unfold setAmountDollars; split_ifs <;> rfl

theorem setTotalAmountDollars_ancillary (inv : Investor) (p : NotionPayload) :
    (setTotalAmountDollars inv p).ancillary_fees_ecf26 = p.ancillary_fees_ecf26 := by
  unfold setTotalAmountDollars; split_ifs <;> rfl

theorem setFundsState_ancillary (inv : Investor) (p : NotionPayload) :
    (setFundsState inv p).ancillary_fees_ecf26 = p.ancillary_fees_ecf26 := by
  unfold setFundsState; split_ifs <;> rfl

theorem setInvestorState_ancillary (inv : Investor) (p : NotionPayload) :
    (setInvestorState inv p).ancillary_fees_ecf26 = p.ancillary_fees_ecf26 := by
  unfold setInvestorState; split_ifs <;> rfl

theorem setConsent_ancillary (inv : Investor) (p : NotionPayload) :
    (setConsent inv p).ancillary_fees_ecf26 = p.ancillary_fees_ecf26 := by
  unfold setConsent; split_ifs <;> rfl

theorem setStreetAddress_ancillary (inv : Investor) (p : NotionPayload) :
    (setStreetAddress inv p).ancillary_fees_ecf26 = p.ancillary_fees_ecf26 := by
  unfold setStreetAddress; split_ifs <;> rfl

theorem setAncillaryFees_spec (inv : Investor) (p : NotionPayload) :
    (setAncillaryFees inv p).ancillary_fees_ecf26 =
      (match inv.allocated_amount, inv.investment_amount with
        | some a, some i =>
          if a - i > 0 then some (a - i) else p.ancillary_fees_ecf26
        | _, _ => p.ancillary_fees_ecf26) := by
  unfold setAncillaryFees
  rcases inv.allocated_amount with _ | a <;> rcases inv.investment_amount with _ | i <;>
    simp <;> split_ifs <;> rfl

theorem withInvestorFields_ancillary (inv : Investor) (p : NotionPayload) :
    (withInvestorFields inv p).ancillary_fees_ecf26 =
      (match inv.allocated_amount, inv.investment_amount with
        | some a, some i =>
          if a - i > 0 then some (a - i) else p.ancillary_fees_ecf26
        | _, _ => p.ancillary_fees_ecf26) := by
  simp only [withInvestorFields, setAncillaryFees_spec, setStreetAddress_ancillary,
    setConsent_ancillary, setInvestorState_ancillary, setFundsState_ancillary,
    setTotalAmountDollars_ancillary, setAmountDollars_ancillary,
    setNumberOfSecurities_ancillary]

theorem withEventOverride_ancillary (e : Option String) (p : NotionPayload) :
    (withEventOverride e p).ancillary_fees_ecf26 = p.ancillary_fees_ecf26 := by
  unfold withEventOverride
  split_ifs <;> rfl

/-! ## Claims -/

/-- **C5**: the normalizer derives `ancillary_fees_ecf26` equal to
`allocated_amount - investment_amount` exactly when both inputs are
present and the difference is strictly positive; when either input is
absent or the difference is not positive, no fee attribute is produced. -/
theorem ancillary_fees_spec (b : WebhookBody) (inv : Investor) :
    (∀ a i : Int, inv.allocated_amount = some a → inv.investment_amount = some i →
      ((0 < a - i →
          (buildNotionPayload b inv).ancillary_fees_ecf26 = some (a - i)) ∧
       (a - i ≤ 0 →
          (buildNotionPayload b inv).ancillary_fees_ecf26 = none))) ∧
    ((inv.allocated_amount = none ∨ inv.investment_amount = none) →
      (buildNotionPayload b inv).ancillary_fees_ecf26 = none) := by
  have hbase :
      (buildNotionPayload b inv).ancillary_fees_ecf26 =
        (match inv.allocated_amount, inv.investment_amount with
          | some a, some i => if a - i > 0 then some (a - i) else none
          | _, _ => none) := by
    unfold buildNotionPayload
    rw [withEventOverride_ancillary, withInvestorFields_ancillary,
      withDealFields_ancillary, basePayload_ancillary]
  constructor
  · intro a i ha hi
    rw [hbase, ha, hi]
    constructor
    · intro hpos
      simp [hpos]
    · intro hnonpos
      simp [show ¬ (a - i > 0) from not_lt.mpr hnonpos]
  · intro h
    rw [hbase]
    rcases h with h | h <;> rw [h]
    rcases inv.allocated_amount with _ | a <;> rfl

/-- Witness for C5: `allocated_amount = 1000`, `investment_amount = 900`
yields a fee of `100`; equal amounts yield no fee attribute. -/
theorem ancillary_fees_spec_witness :
    (buildNotionPayload { event := some "investor.update" }
        { email := some "w@example.com", allocated_amount := some 1000,
          investment_amount := some 900 }).ancillary_fees_ecf26 = some 100 ∧
    (buildNotionPayload { event := some "investor.update" }
        { email := some "w@example.com", allocated_amount := some 900,
          investment_amount := some 900 }).ancillary_fees_ecf26 = none := by
  constructor
  · have h := (ancillary_fees_spec { event := some "investor.update" }
      { email := some "w@example.com", allocated_amount := some 1000,
        investment_amount := some 900 }).1 1000 900 rfl rfl
    have h2 := h.1 (by norm_num)
    simpa using h2
  · exact ((ancillary_fees_spec { event := some "investor.update" }
      { email := some "w@example.com", allocated_amount := some 900,
        investment_amount := some 900 }).1 900 900 rfl rfl).2 (by norm_num)

/-- **C6**: for every webhook body whose event label is
`investor.funded`, the normalized attribute set has the funded flag
`investor_funded_status` set to `true` and `investor_state` set to
`"funded"`, regardless of the other fields present. -/
theorem withEventOverride_funded (p : NotionPayload) :
    (withEventOverride (some "investor.funded") p).investor_funded_status = some true ∧
    (withEventOverride (some "investor.funded") p).investor_state = some "funded" := by
  unfold withEventOverride
  simp

theorem funded_event_sets_flags (b : WebhookBody) (p : NotionPayload)
    (hev : b.event = some "investor.funded")
    (hp : webhookNormalize b = some p) :
    p.investor_funded_status = some true ∧ p.investor_state = some "funded" := by
  unfold webhookNormalize at hp
  rcases hb : b.investor with _ | inv <;> rw [hb] at hp
  · cases hp
  · by_cases he : strTruthy inv.email = true
    · simp only [he, if_true, Option.some.injEq] at hp
      rw [← hp]
      unfold buildNotionPayload
      rw [hev]
      exact withEventOverride_funded _
    · simp only [he, if_false, Bool.false_eq_true] at hp
      cases hp

/-- Witness for C6: a funded-event body whose investor carries a
conflicting earlier state still normalizes to the funded flag and
status. -/
theorem funded_event_sets_flags_witness :
    (buildNotionPayload
        { event := some "investor.funded",
          investor := some { email := some "w@example.com", state := some "signed" } }
        { email := some "w@example.com", state := some "signed" }).investor_funded_status
      = some true ∧
    (buildNotionPayload
        { event := some "investor.funded",
          investor := some { email := some "w@example.com", state := some "signed" } }
        { email := some "w@example.com", state := some "signed" }).investor_state
      = some "funded" :=
  funded_event_sets_flags
    { event := some "investor.funded",
      investor := some { email := some "w@example.com", state := some "signed" } }
    (buildNotionPayload
      { event := some "investor.funded",
        investor := some { email := some "w@example.com", state := some "signed" } }
      { email := some "w@example.com", state := some "signed" })
    rfl rfl

/-- **C1** counterexample: a webhook request that supplies a contact
method — a phone number — but no email is still rejected (HTTP 400,
no outbound call), refuting "a request supplying at least one contact
method (email or phone) is not rejected for a missing contact method"
for the webhook entry point (`webhook.js` lines 41–44 test only
`investor.email`). -/
theorem contact_method_claim_cex :
    webhookNormalize
      { event := some "investor.update",
        investor := some { phone_number := some "5551234567" } } = none := rfl

/-- **C1** amended: the direct-save endpoint returns a 400 validation
error and issues no external store call exactly when both email and
phone are absent (or empty, hence falsy); the webhook endpoint returns
its 400-and-no-call outcome exactly when the investor object is missing
or the investor email is absent or empty — there, a phone number alone
does not prevent rejection. -/
theorem contact_method_amended (r : SaveReq) (now : String) (store : StoreResp)
    (b : WebhookBody) :
    ((runSave r now store = (400, [])) ↔
      (strTruthy r.email = false ∧ strTruthy r.phone_number = false)) ∧
    ((webhookNormalize b = none) ↔
      (b.investor = none ∨
        ∃ inv, b.investor = some inv ∧ strTruthy inv.email = false)) := by
  constructor
  · unfold runSave
    by_cases hc : (!(strTruthy r.email) && !(strTruthy r.phone_number)) = true
    · rw [if_pos hc]
      simp only [Bool.and_eq_true, Bool.not_eq_true'] at hc
      simp [hc]
    · rw [if_neg hc]
      simp only [Bool.and_eq_true, Bool.not_eq_true'] at hc
      constructor
      · intro h
        exfalso
        revert h
        split
        all_goals simp
      · intro h
        exact absurd ⟨h.1, h.2⟩ hc
  · unfold webhookNormalize
    rcases hb : b.investor with _ | inv
    · simp
    · by_cases he : strTruthy inv.email = true
      · simp [he]
      · simp [eq_false_of_ne_true he]

/-- **C10**: when `investment_amount` is present but falsy (the number 0
or the empty string), no number-typed `Investment Amount` property is
written: inclusion is gated on JS truthiness of the value
(`save_to_notion.js` line 183), not on key presence. -/
theorem falsy_amount_not_written (r : SaveReq) (target : Option String) (now : String)
    (v : JSPrim) (hp : r.investment_amount = some v)
    (hf : primTruthy (some v) = false) :
    "Investment Amount" ∉ (buildProperties r target now).map Prod.fst := by
  simp [buildProperties, List.map_append, List.mem_append, mem_map_fst_propIf,
    pair_mem_propIf, hp, hf]

/-- Witness for C10: `investment_amount = 0` and `investment_amount = ""`
both produce no `Investment Amount` property. -/
theorem falsy_amount_not_written_witness :
    "Investment Amount" ∉
      (buildProperties
        { email := some "w@example.com", investment_amount := some (JSPrim.jnum 0) }
        none "T0").map Prod.fst ∧
    "Investment Amount" ∉
      (buildProperties
        { email := some "w@example.com", investment_amount := some (JSPrim.jstr "") }
        none "T0").map Prod.fst :=
  ⟨falsy_amount_not_written _ none "T0" (JSPrim.jnum 0) rfl rfl,
   falsy_amount_not_written _ none "T0" (JSPrim.jstr "") rfl rfl⟩

theorem setSecurityType_phone (d : Deal) (p : NotionPayload) :
    (setSecurityType d p).phone_number = p.phone_number := by
  unfold setSecurityType; split_ifs <;> rfl

theorem setPricePerSecurity_phone (d : Deal) (p : NotionPayload) :
    (setPricePerSecurity d p).phone_number = p.phone_number := by
  unfold setPricePerSecurity; split_ifs <;> rfl

theorem withDealFields_phone (d : Option Deal) (p : NotionPayload) :
    (withDealFields d p).phone_number = p.phone_number := by
  cases d with
  | none => rfl
  | some d => simp only [withDealFields, setPricePerSecurity_phone, setSecurityType_phone]

theorem setNumberOfSecurities_phone (inv : Investor) (p : NotionPayload) :
    (setNumberOfSecurities inv p).phone_number = p.phone_number := by
  unfold setNumberOfSecurities; split_ifs <;> rfl

theorem setAmountDollars_phone (inv : Investor) (p : NotionPayload) :
    (setAmountDollars inv p).phone_number = p.phone_number := by
  unfold setAmountDollars; split_ifs <;> rfl

theorem setTotalAmountDollars_phone (inv : Investor) (p : NotionPayload) :
    (setTotalAmountDollars inv p).phone_number = p.phone_number := by
  unfold setTotalAmountDollars; split_ifs <;> rfl

theorem setFundsState_phone (inv : Investor) (p : NotionPayload) :
    (setFundsState inv p).phone_number = p.phone_number := by
  unfold setFundsState; split_ifs <;> rfl

theorem setInvestorState_phone (inv : Investor) (p : NotionPayload) :
    (setInvestorState inv p).phone_number = p.phone_number := by
  unfold setInvestorState; split_ifs <;> rfl

theorem setConsent_phone (inv : Investor) (p : NotionPayload) :
    (setConsent inv p).phone_number = p.phone_number := by
  unfold setConsent; split_ifs <;> rfl

theorem setStreetAddress_phone (inv : Investor) (p : NotionPayload) :
    (setStreetAddress inv p).phone_number = p.phone_number := by
  unfold setStreetAddress; split_ifs <;> rfl

theorem setAncillaryFees_phone (inv : Investor) (p : NotionPayload) :
    (setAncillaryFees inv p).phone_number = p.phone_number := by
  unfold setAncillaryFees
  rcases inv.allocated_amount with _ | a <;> rcases inv.investment_amount with _ | i <;>
    simp <;> split_ifs <;> rfl

theorem withEventOverride_phone (e : Option String) (p : NotionPayload) :
    (withEventOverride e p).phone_number = p.phone_number := by
  unfold withEventOverride; split_ifs <;> rfl

/-- The normalizer always forwards `phone_number` as
`investor.phone_number || ''`: no later block touches it. -/
theorem buildNotionPayload_phone (b : WebhookBody) (inv : Investor) :
    (buildNotionPayload b inv).phone_number = inv.phone_number.getD "" := by
  unfold buildNotionPayload
  rw [withEventOverride_phone, withInvestorFields]
  rw [setAncillaryFees_phone, setStreetAddress_phone, setConsent_phone,
    setInvestorState_phone, setFundsState_phone, setTotalAmountDollars_phone,
    setAmountDollars_phone, setNumberOfSecurities_phone, withDealFields_phone]
  rfl

set_option maxHeartbeats 4000000 in
/-- **C2**: keys absent from the request produce no property in the
mapped property set — the only input-derived property written
unconditionally is the Name title, whose absent name fields are treated
as the empty string — so a partial attribute set never carries empty
values for omitted fields into an update.  The final conjunct covers the
webhook chain: an investor with no phone number yields no `Phone`
property after the forwarded payload is mapped, even though the
normalizer materializes `phone_number` as `''`. -/
theorem absent_keys_omitted (r : SaveReq) (target : Option String) (now : String)
    (b : WebhookBody) (inv : Investor) :
    (r.email = none → "Email" ∉ (buildProperties r target now).map Prod.fst) ∧
    (r.phone_number = none → "Phone" ∉ (buildProperties r target now).map Prod.fst) ∧
    (r.street_address = none → r.unit2 = none → r.city = none → r.region = none →
      r.postal_code = none → r.country = none →
      "Address" ∉ (buildProperties r target now).map Prod.fst) ∧
    (r.investment_amount = none →
      "Investment Amount" ∉ (buildProperties r target now).map Prod.fst) ∧
    (r.is_accredited = none →
      "Accredited Investor" ∉ (buildProperties r target now).map Prod.fst) ∧
    (r.utm_source = none → "UTM Source" ∉ (buildProperties r target now).map Prod.fst) ∧
    (r.utm_medium = none → "UTM Medium" ∉ (buildProperties r target now).map Prod.fst) ∧
    (r.utm_campaign = none → "UTM Campaign" ∉ (buildProperties r target now).map Prod.fst) ∧
    (r.utm_content = none → "UTM Content" ∉ (buildProperties r target now).map Prod.fst) ∧
    (r.utm_term = none → "UTM Term" ∉ (buildProperties r target now).map Prod.fst) ∧
    (r.entered_funnel = none →
      "status: entered_funnel_ecf26" ∉ (buildProperties r target now).map Prod.fst) ∧
    (r.checkout2_started = none →
      "action: checkout2_started_ecf26" ∉ (buildProperties r target now).map Prod.fst) ∧
    (r.investor_funded_status = none →
      "investor_funded_status_ecf26" ∉ (buildProperties r target now).map Prod.fst) ∧
    (r.investor_deck_downloaded_ecf26 = none →
      "status: entered_funnel_pitch_ecf26" ∉ (buildProperties r target now).map Prod.fst) ∧
    (r.marketing_consent = none →
      "Marketing Consent" ∉ (buildProperties r target now).map Prod.fst) ∧
    (r.sms_consent = none → "SMS Consent" ∉ (buildProperties r target now).map Prod.fst) ∧
    (r.investor_state = none →
      "investor_state_ecf26" ∉ (buildProperties r target now).map Prod.fst) ∧
    (r.ac_sync_status = none →
      "AC Sync Status" ∉ (buildProperties r target now).map Prod.fst) ∧
    (r.tags = none → "Tags" ∉ (buildProperties r target now).map Prod.fst) ∧
    (("Name", PropValue.title (titleContent r)) ∈ buildProperties r target now ∧
      (r.first_name = none → r.last_name = none → titleContent r = "No name provided")) ∧
    (inv.phone_number = none →
      "Phone" ∉ (buildProperties (reqOfPayload (buildNotionPayload b inv))
        target now).map Prod.fst) := by
  refine ⟨?_, ?_, ?_, ?_, ?_, ?_, ?_, ?_, ?_, ?_, ?_, ?_, ?_, ?_, ?_, ?_, ?_, ?_, ?_,
    ⟨?_, ?_⟩, ?_⟩
  · intro h
    simp [buildProperties, List.map_append, List.mem_append, mem_map_fst_propIf,
      pair_mem_propIf, h, strTruthy]
  · intro h
    simp [buildProperties, List.map_append, List.mem_append, mem_map_fst_propIf,
      pair_mem_propIf, h, strTruthy]
  · intro h1 h2 h3 h4 h5 h6
    simp [buildProperties, List.map_append, List.mem_append, mem_map_fst_propIf,
      pair_mem_propIf, addressParts, h1, h2, h3, h4, h5, h6]
  · intro h
    simp [buildProperties, List.map_append, List.mem_append, mem_map_fst_propIf,
      pair_mem_propIf, h, primTruthy]
  · intro h
    simp [buildProperties, List.map_append, List.mem_append, mem_map_fst_propIf,
      pair_mem_propIf, h]
  · intro h
    simp [buildProperties, List.map_append, List.mem_append, mem_map_fst_propIf,
      pair_mem_propIf, h, strTruthy]
  · intro h
    simp [buildProperties, List.map_append, List.mem_append, mem_map_fst_propIf,
      pair_mem_propIf, h, strTruthy]
  · intro h
    simp [buildProperties, List.map_append, List.mem_append, mem_map_fst_propIf,
      pair_mem_propIf, h, strTruthy]
  · intro h
    simp [buildProperties, List.map_append, List.mem_append, mem_map_fst_propIf,
      pair_mem_propIf, h, strTruthy]
  · intro h
    simp [buildProperties, List.map_append, List.mem_append, mem_map_fst_propIf,
      pair_mem_propIf, h, strTruthy]
  · intro h
    simp [buildProperties, List.map_append, List.mem_append, mem_map_fst_propIf,
      pair_mem_propIf, h]
  · intro h
    simp [buildProperties, List.map_append, List.mem_append, mem_map_fst_propIf,
      pair_mem_propIf, h]
  · intro h
    simp [buildProperties, List.map_append, List.mem_append, mem_map_fst_propIf,
      pair_mem_propIf, h]
  · intro h
    simp [buildProperties, List.map_append, List.mem_append, mem_map_fst_propIf,
      pair_mem_propIf, h]
  · intro h
    simp [buildProperties, List.map_append, List.mem_append, mem_map_fst_propIf,
      pair_mem_propIf, h]
  · intro h
    simp [buildProperties, List.map_append, List.mem_append, mem_map_fst_propIf,
      pair_mem_propIf, h]
  · intro h
    simp [buildProperties, List.map_append, List.mem_append, mem_map_fst_propIf,
      pair_mem_propIf, h, strTruthy]
  · intro h
    simp [buildProperties, List.map_append, List.mem_append, mem_map_fst_propIf,
      pair_mem_propIf, h, strTruthy]
  · intro h
    simp [buildProperties, List.map_append, List.mem_append, mem_map_fst_propIf,
      pair_mem_propIf, h]
  · simp [buildProperties]
  · intro h1 h2
    have ht : jsTrim " " = "" := by decide
    simp [titleContent, h1, h2, ht]
  · intro h
    simp [buildProperties, List.map_append, List.mem_append, mem_map_fst_propIf,
      pair_mem_propIf, reqOfPayload, buildNotionPayload_phone, h, strTruthy]

/-- Witness for C2: the request with every key absent maps to a property
set with none of the optional properties, a defaulted Name title, and —
through the webhook chain with a phone-less investor — no Phone
property. -/
theorem absent_keys_omitted_witness :
    "Email" ∉ (buildProperties {} none "T0").map Prod.fst ∧
    "Phone" ∉ (buildProperties {} none "T0").map Prod.fst ∧
    "Address" ∉ (buildProperties {} none "T0").map Prod.fst ∧
    "Investment Amount" ∉ (buildProperties {} none "T0").map Prod.fst ∧
    "Accredited Investor" ∉ (buildProperties {} none "T0").map Prod.fst ∧
    "UTM Source" ∉ (buildProperties {} none "T0").map Prod.fst ∧
    "UTM Medium" ∉ (buildProperties {} none "T0").map Prod.fst ∧
    "UTM Campaign" ∉ (buildProperties {} none "T0").map Prod.fst ∧
    "UTM Content" ∉ (buildProperties {} none "T0").map Prod.fst ∧
    "UTM Term" ∉ (buildProperties {} none "T0").map Prod.fst ∧
    "status: entered_funnel_ecf26" ∉ (buildProperties {} none "T0").map Prod.fst ∧
    "action: checkout2_started_ecf26" ∉ (buildProperties {} none "T0").map Prod.fst ∧
    "investor_funded_status_ecf26" ∉ (buildProperties {} none "T0").map Prod.fst ∧
    "status: entered_funnel_pitch_ecf26" ∉ (buildProperties {} none "T0").map Prod.fst ∧
    "Marketing Consent" ∉ (buildProperties {} none "T0").map Prod.fst ∧
    "SMS Consent" ∉ (buildProperties {} none "T0").map Prod.fst ∧
    "investor_state_ecf26" ∉ (buildProperties {} none "T0").map Prod.fst ∧
    "AC Sync Status" ∉ (buildProperties {} none "T0").map Prod.fst ∧
    "Tags" ∉ (buildProperties {} none "T0").map Prod.fst ∧
    ("Name", PropValue.title (titleContent {})) ∈ buildProperties {} none "T0" ∧
    titleContent {} = "No name provided" ∧
    "Phone" ∉ (buildProperties (reqOfPayload (buildNotionPayload {} {}))
      none "T0").map Prod.fst := by
  obtain ⟨h1, h2, h3, h4, h5, h6, h7, h8, h9, h10, h11, h12, h13, h14, h15, h16, h17,
    h18, h19, h20, h21⟩ := absent_keys_omitted {} none "T0" {} {}
  exact ⟨h1 rfl, h2 rfl, h3 rfl rfl rfl rfl rfl rfl, h4 rfl, h5 rfl, h6 rfl, h7 rfl,
    h8 rfl, h9 rfl, h10 rfl, h11 rfl, h12 rfl, h13 rfl, h14 rfl, h15 rfl, h16 rfl,
    h17 rfl, h18 rfl, h19 rfl, h20.1, h20.2 rfl rfl, h21 rfl⟩

theorem existingEntry_id_ne (r : SaveReq) (store : StoreResp) (rec : PageRec)
    (hwf : store.wf) (h : existingEntry r store = some rec) : rec.id ≠ "" := by
  unfold existingEntry at h
  by_cases hd : doLookup r = true
  · rw [if_pos hd] at h
    cases store with
    | err => cases h
    | ok rs =>
      cases rs with
      | nil => cases h
      | cons a l =>
        simp only [List.head?] at h
        have ha : a = rec := by
          exact (Option.some.injEq _ _).mp h
        subst ha
        exact hwf a (List.mem_cons_self a l)
  · rw [if_neg hd] at h
    cases h

/-- The resolved target is truthy exactly when an explicit truthy
`entry_id` was supplied or the lookup matched a record (whose id is
non-empty by store well-formedness). -/
theorem targetEntryId_truthy (r : SaveReq) (store : StoreResp) (hwf : store.wf) :
    strTruthy (targetEntryId r store) =
      ((existingEntry r store).isSome || strTruthy r.entry_id) := by
  unfold targetEntryId jsOrStr
  cases hE : existingEntry r store with
  | none => simp [strTruthy]
  | some rec =>
    have hne : rec.id ≠ "" := existingEntry_id_ne r store rec hwf hE
    simp [strTruthy, hne]

theorem doLookup_iff (r : SaveReq) :
    doLookup r = true ↔
      (boolTruthy r.update_existing = true ∧ strTruthy r.entry_id = false) := by
  simp [doLookup, Bool.and_eq_true, Bool.not_eq_true']

/-- **C7**: the mapped property set carries `Created At` exactly when no
target was resolved — no truthy explicit `entry_id` and no lookup match —
and always carries `Last Updated`. -/
theorem timestamp_policy (r : SaveReq) (now : String) (store : StoreResp)
    (hwf : store.wf) :
    (("Created At" ∈ (buildProperties r (targetEntryId r store) now).map Prod.fst) ↔
      (strTruthy r.entry_id = false ∧ existingEntry r store = none)) ∧
    "Last Updated" ∈ (buildProperties r (targetEntryId r store) now).map Prod.fst := by
  constructor
  · have hmem : ("Created At" ∈
        (buildProperties r (targetEntryId r store) now).map Prod.fst) ↔
        strTruthy (targetEntryId r store) = false := by
      simp [buildProperties, List.map_append, List.mem_append, mem_map_fst_propIf,
        pair_mem_propIf]
    rw [hmem, targetEntryId_truthy r store hwf]
    cases hE : existingEntry r store <;> simp [hE]
  · simp [buildProperties, List.map_append, List.mem_append, mem_map_fst_propIf,
      pair_mem_propIf]

/-- Witness for C7: a request with neither `entry_id` nor a lookup match
gets `Created At` and `Last Updated`. -/
theorem timestamp_policy_witness :
    "Created At" ∈ (buildProperties { email := some "w@example.com" }
      (targetEntryId { email := some "w@example.com" } (StoreResp.ok []))
      "T0").map Prod.fst ∧
    "Last Updated" ∈ (buildProperties { email := some "w@example.com" }
      (targetEntryId { email := some "w@example.com" } (StoreResp.ok []))
      "T0").map Prod.fst := by
  have h := timestamp_policy { email := some "w@example.com" } "T0" (StoreResp.ok [])
    (by intro rec hrec; cases hrec)
  exact ⟨h.1.mpr ⟨rfl, rfl⟩, h.2⟩

/-- **C3**: a store lookup is issued exactly when no explicit (truthy)
target identifier was supplied and the update-existing flag is set; and
on a lookup hit the handler issues an update against the matched
identifier, never a create. -/
theorem lookup_gating_and_hit_updates (r : SaveReq) (now : String) (store : StoreResp)
    (hc : strTruthy r.email = true ∨ strTruthy r.phone_number = true) :
    ((∃ f, ExtCall.query f ∈ (runSave r now store).2) ↔
      (boolTruthy r.update_existing = true ∧ strTruthy r.entry_id = false)) ∧
    (∀ rec rest, store = StoreResp.ok (rec :: rest) →
      boolTruthy r.update_existing = true → strTruthy r.entry_id = false →
      rec.id ≠ "" →
      (runSave r now store).2 =
        [ExtCall.query (lookupFilterOpt r),
         ExtCall.update rec.id (buildProperties r (some rec.id) now)]) := by
  have h400 : ¬((!(strTruthy r.email) && !(strTruthy r.phone_number)) = true) := by
    rcases hc with h | h <;> simp [h]
  constructor
  · rw [← doLookup_iff]
    unfold runSave
    rw [if_neg h400]
    by_cases hd : doLookup r = true
    · split <;> simp [hd]
    · split <;> simp [hd]
  · intro rec rest hst hu he hid
    subst hst
    have hd : doLookup r = true := (doLookup_iff r).mpr ⟨hu, he⟩
    have hex : existingEntry r (StoreResp.ok (rec :: rest)) = some rec := by
      simp [existingEntry, hd]
    have htgt : targetEntryId r (StoreResp.ok (rec :: rest)) = some rec.id := by
      unfold targetEntryId jsOrStr
      rw [hex]
      simp [strTruthy, hid]
    unfold runSave
    rw [if_neg h400, htgt]
    simp [strTruthy, hid, hd]

/-- Witness for C3: with `update_existing` set, no `entry_id`, and a
store hit on page `pg1`, the handler issues the lookup query and then an
update against `pg1`. -/
theorem lookup_gating_and_hit_updates_witness :
    (∃ f, ExtCall.query f ∈
      (runSave { email := some "w@example.com", update_existing := some true } "T0"
        (StoreResp.ok [{ id := "pg1" }])).2) ∧
    (runSave { email := some "w@example.com", update_existing := some true } "T0"
        (StoreResp.ok [{ id := "pg1" }])).2 =
      [ExtCall.query (lookupFilterOpt
          { email := some "w@example.com", update_existing := some true }),
       ExtCall.update "pg1" (buildProperties
          { email := some "w@example.com", update_existing := some true }
          (some "pg1") "T0")] := by
  have h := lookup_gating_and_hit_updates
    { email := some "w@example.com", update_existing := some true } "T0"
    (StoreResp.ok [{ id := "pg1" }]) (Or.inl rfl)
  exact ⟨h.1.mpr ⟨rfl, rfl⟩, h.2 { id := "pg1" } [] rfl rfl rfl (by decide)⟩

/-- **C4**: with update-seeking enabled and no explicit target
identifier, a lookup failure (the swallowed catch) or an empty result
list resolves to "no match" and the handler proceeds to issue a create
call after the lookup query, never failing the request. -/
theorem lookup_miss_or_failure_creates (r : SaveReq) (now : String) (store : StoreResp)
    (hc : strTruthy r.email = true ∨ strTruthy r.phone_number = true)
    (hu : boolTruthy r.update_existing = true) (he : strTruthy r.entry_id = false)
    (hs : store = StoreResp.err ∨ store = StoreResp.ok []) :
    runSave r now store =
      (200, [ExtCall.query (lookupFilterOpt r),
             ExtCall.create (buildProperties r r.entry_id now)]) := by
  have h400 : ¬((!(strTruthy r.email) && !(strTruthy r.phone_number)) = true) := by
    rcases hc with h | h <;> simp [h]
  have hd : doLookup r = true := (doLookup_iff r).mpr ⟨hu, he⟩
  have hex : existingEntry r store = none := by
    rcases hs with h | h <;> subst h <;> simp [existingEntry, hd]
  have htgt : targetEntryId r store = r.entry_id := by
    unfold targetEntryId jsOrStr
    rw [hex]
    simp [strTruthy]
  unfold runSave
  rw [if_neg h400, htgt, if_neg (by simp [he])]
  simp [hd]

/-- Witness for C4: both the transport-error store and the empty-result
store lead to a create call for the same request. -/
theorem lookup_miss_or_failure_creates_witness :
    runSave { email := some "w@example.com", update_existing := some true } "T0"
        StoreResp.err =
      (200, [ExtCall.query (lookupFilterOpt
              { email := some "w@example.com", update_existing := some true }),
             ExtCall.create (buildProperties
              { email := some "w@example.com", update_existing := some true }
              none "T0")]) ∧
    runSave { email := some "w@example.com", update_existing := some true } "T0"
        (StoreResp.ok []) =
      (200, [ExtCall.query (lookupFilterOpt
              { email := some "w@example.com", update_existing := some true }),
             ExtCall.create (buildProperties
              { email := some "w@example.com", update_existing := some true }
              none "T0")]) :=
  ⟨lookup_miss_or_failure_creates
      { email := some "w@example.com", update_existing := some true } "T0"
      StoreResp.err (Or.inl rfl) rfl rfl (Or.inl rfl),
   lookup_miss_or_failure_creates
      { email := some "w@example.com", update_existing := some true } "T0"
      (StoreResp.ok []) (Or.inl rfl) rfl rfl (Or.inr rfl)⟩

/-- **C9**: whenever the lookup runs, its query filter is the
disjunction of the email-equality and phone-equality filters exactly
when both identity values are truthy, and the single equality filter on
the sole present identity value otherwise. -/
theorem lookup_filter_shape (r : SaveReq) (now : String) (store : StoreResp)
    (hu : boolTruthy r.update_existing = true) (he : strTruthy r.entry_id = false)
    (hc : strTruthy r.email = true ∨ strTruthy r.phone_number = true) :
    ExtCall.query (lookupFilterOpt r) ∈ (runSave r now store).2 ∧
    (strTruthy r.email = true → strTruthy r.phone_number = true →
      lookupFilterOpt r = some (QueryFilter.disj
        [QueryFilter.emailEq (r.email.getD ""),
         QueryFilter.phoneEq (r.phone_number.getD "")])) ∧
    (strTruthy r.email = true → strTruthy r.phone_number = false →
      lookupFilterOpt r = some (QueryFilter.emailEq (r.email.getD ""))) ∧
    (strTruthy r.email = false → strTruthy r.phone_number = true →
      lookupFilterOpt r = some (QueryFilter.phoneEq (r.phone_number.getD ""))) := by
  have h400 : ¬((!(strTruthy r.email) && !(strTruthy r.phone_number)) = true) := by
    rcases hc with h | h <;> simp [h]
  have hd : doLookup r = true := (doLookup_iff r).mpr ⟨hu, he⟩
  refine ⟨?_, ?_, ?_, ?_⟩
  · unfold runSave
    rw [if_neg h400]
    split <;> simp [hd]
  · intro he1 hp1
    simp [lookupFilterOpt, lookupFilters, he1, hp1]
  · intro he1 hp0
    simp [lookupFilterOpt, lookupFilters, he1, hp0]
  · intro he0 hp1
    simp [lookupFilterOpt, lookupFilters, he0, hp1]

/-- Witness for C9: with both identity values the filter is the ordered
disjunction; the lookup query is among the issued calls. -/
theorem lookup_filter_shape_witness :
    ExtCall.query (lookupFilterOpt
        { email := some "w@example.com", phone_number := some "5551234567",
          update_existing := some true }) ∈
      (runSave
        { email := some "w@example.com", phone_number := some "5551234567",
          update_existing := some true } "T0" (StoreResp.ok [])).2 ∧
    lookupFilterOpt
        { email := some "w@example.com", phone_number := some "5551234567",
          update_existing := some true } =
      some (QueryFilter.disj [QueryFilter.emailEq "w@example.com",
        QueryFilter.phoneEq "5551234567"]) := by
  have h := lookup_filter_shape
    { email := some "w@example.com", phone_number := some "5551234567",
      update_existing := some true } "T0" (StoreResp.ok []) rfl rfl (Or.inl rfl)
  exact ⟨h.1, h.2.1 rfl rfl⟩

/-- A request whose attribute set contains only the email and
investment-amount keys (claim C8's round-trip input). -/
def c8req (e : String) (v : JSPrim) : SaveReq :=
  { email := some e, investment_amount := some v }

/-- **C8** counterexample: for the attribute set containing only
email and investment_amount, the mapped property set also contains the
always-present `Name` title and — because no target resolves for such a
request — the `Created At` timestamp, refuting "nothing else (no
address, no creation timestamp, no other properties)". -/
theorem roundtrip_claim_cex :
    "Name" ∈ (buildProperties (c8req "w@example.com" (JSPrim.jnum 100))
      (targetEntryId (c8req "w@example.com" (JSPrim.jnum 100)) (StoreResp.ok []))
      "T0").map Prod.fst ∧
    "Created At" ∈ (buildProperties (c8req "w@example.com" (JSPrim.jnum 100))
      (targetEntryId (c8req "w@example.com" (JSPrim.jnum 100)) (StoreResp.ok []))
      "T0").map Prod.fst := by decide

/-- **C8** amended: for every attribute set containing only a truthy
email and a truthy investment amount (and any store answer — the lookup
never runs since `update_existing` is absent), the handler issues
exactly one create call whose property set is exactly the defaulted Name
title, the email property, the number property, the creation timestamp,
the last-modified timestamp, and the group relation — in that order,
and nothing else. -/
theorem roundtrip_amended (e : String) (v : JSPrim) (now : String) (store : StoreResp)
    (he : strTruthy (some e) = true) (hv : primTruthy (some v) = true) :
    runSave (c8req e v) now store =
      (200, [ExtCall.create
        [("Name", PropValue.title "No name provided"),
         ("Email", PropValue.email e),
         ("Investment Amount", PropValue.number v),
         ("Created At", PropValue.date now),
         ("Last Updated", PropValue.date now),
         ("Group", PropValue.relation [groupRelationId])]]) := by
  have ht : titleContent (c8req e v) = "No name provided" := rfl
  simp only [c8req] at ht
  have hne : ¬(e = "") := by simpa [strTruthy] using he
  have htgt : targetEntryId (c8req e v) store = none := by
    simp [targetEntryId, existingEntry, doLookup, c8req, boolTruthy, jsOrStr, strTruthy]
  unfold runSave
  rw [htgt]
  simp [he, hv, buildProperties, propIf, addressParts, ht, hne, strTruthy, doLookup,
    boolTruthy, c8req]

/-- Witness for C8 (amended): the concrete round trip at
email `w@example.com`, amount `100`. -/
theorem roundtrip_amended_witness :
    runSave (c8req "w@example.com" (JSPrim.jnum 100)) "T0" (StoreResp.ok []) =
      (200, [ExtCall.create
        [("Name", PropValue.title "No name provided"),
         ("Email", PropValue.email "w@example.com"),
         ("Investment Amount", PropValue.number (JSPrim.jnum 100)),
         ("Created At", PropValue.date "T0"),
         ("Last Updated", PropValue.date "T0"),
         ("Group", PropValue.relation [groupRelationId])]]) :=
  roundtrip_amended "w@example.com" (JSPrim.jnum 100) "T0" (StoreResp.ok [])
    (by decide) (by decide)
